import Mathlib

/-!
Verification of the MCP-Maker RPG Maker MZ server's persistence layer and
database tools against its design specification.

The development shallowly embeds the TypeScript sources:
* `src/utils/types.ts` — the entity record structures;
* `src/utils/fileHandler.ts` — the JSON read/write/backup primitives,
  modelled on an association-list file map;
* the per-entity tool modules (`itemTools.ts`, `stateTools.ts`,
  `skillTools.ts`, `weaponTools.ts`, `armorTools.ts`, `actorTools.ts`,
  `classTools.ts`, `enemyTools.ts`, `mapTools.ts`, `limitTools.ts`,
  `pluginTools.ts`, `databaseTools.ts`).

`src/utils/safeWriter.ts` is not among the provided sources (only its
callers and `FileHandler` are), so `SafeWriter` is modelled from the
specification text, as flagged on each such definition.

JavaScript `number` fields are embedded as `Int` (all the values the tools
store in them are integers) except where the tools divide by 100
(`RPGEffect.value1`, `RPGTrait.value` and the percentage arguments), which
are embedded as `ℚ`.  Entity ids double as array indices and are embedded
as `Nat`.
-/

/-- Effect record (`RPGEffect` in `types.ts`): effect code 11 = RecoverHP,
12 = RecoverMP, 21 = AddState; `value1` holds the rate, `value2` the fixed
amount. -/
structure RPGEffect where
  code : Int
  dataId : Int
  value1 : ℚ
  value2 : Int
  deriving DecidableEq, Repr

/-- Damage sub-structure (`RPGDamage` in `types.ts`). -/
structure RPGDamage where
  type : Int
  elementId : Int
  formula : String
  variance : Int
  critical : Bool
  deriving DecidableEq, Repr

/-- Trait record (`RPGTrait` in `types.ts`). -/
structure RPGTrait where
  code : Int
  dataId : Int
  value : ℚ
  deriving DecidableEq, Repr

/-- Item record (`RPGItem` in `types.ts`). -/
structure RPGItem where
  id : Nat
  name : String
  description : String
  iconIndex : Int
  price : Int
  itypeId : Int
  consumable : Bool
  scope : Int
  occasion : Int
  animationId : Int
  damage : RPGDamage
  effects : List RPGEffect
  hitType : Int
  repeats : Int
  speed : Int
  successRate : Int
  tpGain : Int
  note : String
  deriving DecidableEq, Repr

/-- Actor record (`RPGActor` in `types.ts`). -/
structure RPGActor where
  id : Nat
  name : String
  nickname : String
  classId : Int
  initialLevel : Int
  maxLevel : Int
  characterName : String
  characterIndex : Int
  faceName : String
  faceIndex : Int
  battlerName : String
  equips : List Int
  profile : String
  note : String
  deriving DecidableEq, Repr

/-- Skill-learning entry of a class (`learnings` element in `types.ts`). -/
structure RPGLearning where
  level : Int
  skillId : Int
  note : String
  deriving DecidableEq, Repr

/-- Class record (`RPGClass` in `types.ts`). -/
structure RPGClass where
  id : Nat
  name : String
  expParams : List Int
  params : List (List Int)
  learnings : List RPGLearning
  traits : List RPGTrait
  note : String
  deriving DecidableEq, Repr

/-- Skill record (`RPGSkill` in `types.ts`). -/
structure RPGSkill where
  id : Nat
  name : String
  description : String
  iconIndex : Int
  stypeId : Int
  scope : Int
  occasion : Int
  mpCost : Int
  tpCost : Int
  damage : RPGDamage
  effects : List RPGEffect
  requiredWtypeId1 : Int
  requiredWtypeId2 : Int
  speed : Int
  successRate : Int
  repeats : Int
  tpGain : Int
  hitType : Int
  animationId : Int
  message1 : String
  message2 : String
  note : String
  deriving DecidableEq, Repr

/-- Weapon record (`RPGWeapon` in `types.ts`). -/
structure RPGWeapon where
  id : Nat
  name : String
  description : String
  iconIndex : Int
  price : Int
  wtypeId : Int
  etypeId : Int
  params : List Int
  traits : List RPGTrait
  animationId : Int
  note : String
  deriving DecidableEq, Repr

/-- Armor record (`RPGArmor` in `types.ts`). -/
structure RPGArmor where
  id : Nat
  name : String
  description : String
  iconIndex : Int
  price : Int
  atypeId : Int
  etypeId : Int
  params : List Int
  traits : List RPGTrait
  note : String
  deriving DecidableEq, Repr

/-- Drop-item entry of an enemy (`dropItems` element in `types.ts`). -/
structure RPGDropItem where
  kind : Int
  dataId : Int
  denominator : Int
  deriving DecidableEq, Repr

/-- Action entry of an enemy (`actions` element in `types.ts`). -/
structure RPGEnemyAction where
  conditionParam1 : Int
  conditionParam2 : Int
  conditionType : Int
  rating : Int
  skillId : Int
  deriving DecidableEq, Repr

/-- Enemy record (`RPGEnemy` in `types.ts`). -/
structure RPGEnemy where
  id : Nat
  name : String
  battlerName : String
  battlerHue : Int
  params : List Int
  exp : Int
  gold : Int
  dropItems : List RPGDropItem
  actions : List RPGEnemyAction
  traits : List RPGTrait
  note : String
  deriving DecidableEq, Repr

/-- State record (`RPGState` in `types.ts`). -/
structure RPGState where
  id : Nat
  name : String
  iconIndex : Int
  restriction : Int
  priority : Int
  motion : Int
  overlay : Int
  removeAtBattleEnd : Bool
  removeByRestriction : Bool
  autoRemovalTiming : Int
  minTurns : Int
  maxTurns : Int
  removeByDamage : Bool
  chanceByDamage : Int
  removeByWalking : Bool
  stepsToRemove : Int
  message1 : String
  message2 : String
  message3 : String
  message4 : String
  traits : List RPGTrait
  note : String
  deriving DecidableEq, Repr

/-- Map descriptor in the shared `MapInfos.json` index (`RPGMapInfo` in
`types.ts`). -/
structure RPGMapInfo where
  id : Nat
  name : String
  parentId : Int
  expanded : Bool
  scrollX : Int
  scrollY : Int
  order : Int
  deriving DecidableEq, Repr

/-- Untyped JSON-ish value, standing in for TypeScript `unknown` inside
event command parameter lists. -/
inductive JVal where
  | null : JVal
  | bool (b : Bool) : JVal
  | num (q : ℚ) : JVal
  | str (s : String) : JVal
  | arr (xs : List JVal) : JVal
  | obj (fields : List (String × JVal)) : JVal

/-- Event command (`RPGEventCommand` in `types.ts`). -/
structure RPGEventCommand where
  code : Int
  indent : Int
  parameters : List JVal

/-- Condition block of an event page (`conditions` in `types.ts`). -/
structure RPGEventConditions where
  actorId : Int
  actorValid : Bool
  itemId : Int
  itemValid : Bool
  selfSwitchCh : String
  selfSwitchValid : Bool
  switch1Id : Int
  switch1Valid : Bool
  switch2Id : Int
  switch2Valid : Bool
  variableId : Int
  variableValid : Bool
  variableValue : Int

/-- Image block of an event page (`image` in `types.ts`). -/
structure RPGEventImage where
  tileId : Int
  characterName : String
  direction : Int
  pattern : Int
  characterIndex : Int

/-- One step of a move route (`moveRoute.list` element in `types.ts`). -/
structure RPGMoveCommand where
  code : Int
  parameters : List JVal

/-- Move route of an event page (`moveRoute` in `types.ts`). -/
structure RPGMoveRoute where
  list : List RPGMoveCommand
  «repeat» : Bool
  skippable : Bool
  wait : Bool

/-- Event page (`RPGEventPage` in `types.ts`). -/
structure RPGEventPage where
  conditions : RPGEventConditions
  directionFix : Bool
  image : RPGEventImage
  list : List RPGEventCommand
  moveFrequency : Int
  moveRoute : RPGMoveRoute
  moveSpeed : Int
  moveType : Int
  priorityType : Int
  stepAnime : Bool
  through : Bool
  trigger : Int
  walkAnime : Bool

/-- Map event (`RPGEvent` in `types.ts`). -/
structure RPGEvent where
  id : Nat
  name : String
  x : Int
  y : Int
  pages : List RPGEventPage
  note : String

/-- Audio configuration (`bgm` / `bgs` object type in `types.ts`). -/
structure RPGAudioFile where
  name : String
  pan : Int
  pitch : Int
  volume : Int

/-- Encounter entry (`encounterList` element in `types.ts`). -/
structure RPGEncounter where
  regionSet : List Int
  troopId : Int
  weight : Int

/-- Map body (`RPGMap` in `types.ts`): the per-map `MapXXX.json` payload. -/
structure RPGMap where
  displayName : String
  tilesetId : Int
  width : Nat
  height : Nat
  scrollType : Int
  specifyBattleback : Bool
  battleback1Name : String
  battleback2Name : String
  autoplayBgm : Bool
  bgm : RPGAudioFile
  autoplayBgs : Bool
  bgs : RPGAudioFile
  disableDashing : Bool
  encounterList : List RPGEncounter
  encounterStep : Int
  parallaxName : String
  parallaxLoopX : Bool
  parallaxLoopY : Bool
  parallaxSx : Int
  parallaxSy : Int
  parallaxShow : Bool
  data : List Int
  events : List (Option RPGEvent)
  note : String

/-- Plugin registry entry (`PluginConfig` in `types.ts`). -/
structure PluginConfig where
  name : String
  status : Bool
  description : String
  parameters : List (String × String)
  deriving DecidableEq, Repr

/-- Item type constants (`ItemType` in `types.ts`). -/
def ItemType.Regular : Int := 1

/-- Item type constant `ItemType.KeyItem` from `types.ts`. -/
def ItemType.KeyItem : Int := 2

/-- Scope constant `Scope.OneEnemy` from `types.ts`. -/
def Scope.OneEnemy : Int := 1

/-- Scope constant `Scope.OneAlly` from `types.ts`. -/
def Scope.OneAlly : Int := 7

/-- Occasion constant `Occasion.Always` from `types.ts`. -/
def Occasion.Always : Int := 0

/-- Occasion constant `Occasion.Battle` from `types.ts`. -/
def Occasion.Battle : Int := 1

/-- Effect code constant `EffectCode.RecoverHP` from `types.ts`. -/
def EffectCode.RecoverHP : Int := 11

/-- Effect code constant `EffectCode.RecoverMP` from `types.ts`. -/
def EffectCode.RecoverMP : Int := 12

/-- Effect code constant `EffectCode.AddState` from `types.ts`. -/
def EffectCode.AddState : Int := 21

/-- Damage type constant `DamageType.None` from `types.ts`. -/
def DamageType.None : Int := 0

/-- Damage type constant `DamageType.HPDamage` from `types.ts`. -/
def DamageType.HPDamage : Int := 1

/-- Scroll type constant `ScrollType.NoLoop` from `types.ts`. -/
def ScrollType.NoLoop : Int := 0

/-- On-disk file store: an association list from (project-relative) path to
serialized file content, most recent binding first.  `FileHandler` resolves
logical paths against the project root; the model works directly at the
logical-path level, which is a bijective renaming of the absolute paths for
a fixed project root. -/
def FileMap : Type := List (String × String)

/-- Look up the content of a file (absent files give `none`). -/
def FileMap.get (fs : FileMap) (path : String) : Option String :=
  match fs with
  | [] => none
  | (p, c) :: rest => if p = path then some c else FileMap.get rest path

/-- Write (create or overwrite) a file: newest binding shadows older ones. -/
def FileMap.set (fs : FileMap) (path content : String) : FileMap :=
  (path, content) :: fs

/-- `FileHandler.exists` from `fileHandler.ts`: `fs.access` succeeds exactly
on present paths. -/
def FileHandler.fileExists (fs : FileMap) (path : String) : Bool :=
  (fs.get path).isSome

/-- `FileHandler.backup` from `fileHandler.ts`: copy the file's current
bytes to the sibling `path ++ ".bak"` (`fs.copyFile` overwrites an existing
backup and fails when the source is absent, hence the `Option`). -/
def FileHandler.backup (fs : FileMap) (path : String) : Option FileMap :=
  match fs.get path with
  | some content => some (fs.set (path ++ ".bak") content)
  | none => none

/-- `FileHandler.writeJson` from `fileHandler.ts`: overwrite `path` with the
serialized content (`JSON.stringify(data, null, 2)` is abstracted as the
already-serialized `content` string; directory creation is invisible in the
file map). -/
def FileHandler.writeJson (fs : FileMap) (path content : String) : FileMap :=
  fs.set path content

/-- Project persistence state: the file store plus the version counter.
The spec's data model locates the counter inside the distinguished system
file (`System.json`'s `versionId`); the model keeps that single integer as
its own field rather than re-encoding it through JSON text. -/
structure ProjectState where
  files : FileMap
  version : Nat

/-- Modelled from the spec: the version-bump half of the Cross-File
Consistency Coordinator (`SafeWriter`, whose source `src/utils/safeWriter.ts`
is not among the provided files).  Spec 4.4: a successful database write
triggers a read-modify-write of the system file's version counter,
increment by 1. -/
def SafeWriter.bumpVersion (st : ProjectState) : ProjectState :=
  { st with version := st.version + 1 }

/-- Modelled from the spec: `SafeWriter.writeToDatabase`
(`src/utils/safeWriter.ts` is not among the provided files).  Spec 4.3/4.4:
before overwriting target `path`, copy its current bytes to `path ++ ".bak"`
via `FileHandler.backup`; skip the backup when the target does not yet
exist; if the backup copy fails, abort before touching the target and
report a `WriteFailure`; otherwise write the new content and, strictly
after the primary write succeeds, bump the version counter.  Environmental
I/O failures (e.g. permissions) are injected through the `backupFails` and
`writeFails` oracles; the returned `Bool` is `true` on success and `false`
on a reported `WriteFailure`. -/
def SafeWriter.writeToDatabase (backupFails writeFails : Bool)
    (st : ProjectState) (path content : String) : ProjectState × Bool :=
  if FileHandler.fileExists st.files path then
    if backupFails then (st, false)
    else
      match FileHandler.backup st.files path with
      | none => (st, false)
      | some files1 =>
        if writeFails then ({ st with files := files1 }, false)
        else (SafeWriter.bumpVersion
                { st with files := FileHandler.writeJson files1 path content }, true)
  else
    if writeFails then (st, false)
    else (SafeWriter.bumpVersion
            { st with files := FileHandler.writeJson st.files path content }, true)

/-- One mutating write request: the two failure-injection flags plus the
target path and serialized content handed to `SafeWriter.writeToDatabase`. -/
structure WriteOp where
  backupFails : Bool
  writeFails : Bool
  path : String
  content : String

/-- Run a sequence of mutating operations through the modelled
`SafeWriter`, returning the final state and how many of the operations
succeeded. -/
def runWrites (st : ProjectState) : List WriteOp → ProjectState × Nat
  | [] => (st, 0)
  | op :: rest =>
    let r1 := SafeWriter.writeToDatabase op.backupFails op.writeFails st op.path op.content
    let r2 := runWrites r1.1 rest
    (r2.1, (if r1.2 then 1 else 0) + r2.2)

/-- Shrink loop of `set_database_limit` in `limitTools.ts`: while the array
is longer than `targetLength`, inspect the last entry; a populated (non-null)
entry aborts with an error (`none`), a null entry is popped. -/
def LimitTools.shrinkLoop {α : Type} (data : List (Option α))
    (targetLength : Nat) : Option (List (Option α)) :=
  if h : targetLength < data.length then
    match data.getLast? with
    | some (some _) => none
    | some none => LimitTools.shrinkLoop data.dropLast targetLength
    | none => none
  else some data
termination_by data.length
decreasing_by simp [List.length_dropLast]; omega

/-- `set_database_limit` from `limitTools.ts`, acting on the collection file
for the chosen database: expand with nulls up to `limit + 1` entries, or
shrink by popping trailing nulls, erroring out (before any write) if a
populated entry falls in the truncated range.  Returns the on-disk
collection after the operation and the response's `isError` flag. -/
def LimitTools.set_database_limit {α : Type} (limit : Nat)
    (disk : List (Option α)) : List (Option α) × Bool :=
  let targetLength := limit + 1
  if targetLength > disk.length then
    (disk ++ List.replicate (targetLength - disk.length) none, false)
  else
    match LimitTools.shrinkLoop disk targetLength with
    | some d => (d, false)
    | none => (disk, true)

/-- The `count` helper of `get_database_info` in `databaseTools.ts`:
`arr.filter(i => i !== null && i.name !== "").length`, generic over the
record's `name` projection. -/
def DatabaseTools.count {α : Type} (name : α → String)
    (arr : List (Option α)) : Nat :=
  (arr.filter fun o => match o with
    | some i => name i != ""
    | none => false).length

/-- Arguments of the `create_item` tool (`createItemSchema` in
`itemTools.ts`); `type` ranges over "regular" and "key". -/
structure CreateItemArgs where
  name : String
  description : String
  price : Int
  type : String
  hpRecoveryPercent : ℚ
  hpRecoveryFixed : Int
  mpRecoveryPercent : ℚ
  mpRecoveryFixed : Int
  addStateId : Int
  iconIndex : Int
  deriving DecidableEq, Repr

/-- Arguments of the `update_item` tool (`updateItemSchema` in
`itemTools.ts`); absent optional fields are `none`. -/
structure UpdateItemArgs where
  id : Nat
  name : Option String
  description : Option String
  price : Option Int
  iconIndex : Option Int
  deriving DecidableEq, Repr

/-- `createDefaultDamage` from `itemTools.ts`. -/
def ItemTools.createDefaultDamage : RPGDamage :=
  { type := DamageType.None
    elementId := 0
    formula := "0"
    variance := 20
    critical := false }

/-- `createDefaultItem` from `itemTools.ts`. -/
def ItemTools.createDefaultItem (id : Nat) : RPGItem :=
  { id := id
    name := ""
    description := ""
    iconIndex := 0
    price := 0
    itypeId := ItemType.Regular
    consumable := true
    scope := Scope.OneAlly
    occasion := Occasion.Always
    animationId := 0
    damage := ItemTools.createDefaultDamage
    effects := []
    hitType := 0
    repeats := 1
    speed := 0
    successRate := 100
    tpGain := 0
    note := "" }

/-- Record built by the `create_item` handler in `itemTools.ts` for a fresh
id: the default item with the supplied fields assigned, the conditional
HP-recovery, MP-recovery and add-state effects pushed, and scope/occasion
set when any effect was added. -/
def ItemTools.create_item_record (a : CreateItemArgs) (id : Nat) : RPGItem :=
  let base := ItemTools.createDefaultItem id
  let it := { base with
    name := a.name
    description := a.description
    price := a.price
    iconIndex := a.iconIndex
    itypeId := if a.type = "key" then ItemType.KeyItem else ItemType.Regular }
  let effects1 :=
    if a.hpRecoveryPercent > 0 ∨ a.hpRecoveryFixed > 0 then
      it.effects ++ [{ code := EffectCode.RecoverHP, dataId := 0,
                       value1 := a.hpRecoveryPercent / 100,
                       value2 := a.hpRecoveryFixed }]
    else it.effects
  let effects2 :=
    if a.mpRecoveryPercent > 0 ∨ a.mpRecoveryFixed > 0 then
      effects1 ++ [{ code := EffectCode.RecoverMP, dataId := 0,
                     value1 := a.mpRecoveryPercent / 100,
                     value2 := a.mpRecoveryFixed }]
    else effects1
  let effects3 :=
    if a.addStateId > 0 then
      effects2 ++ [{ code := EffectCode.AddState, dataId := a.addStateId,
                     value1 := 1, value2 := 0 }]
    else effects2
  let it := { it with effects := effects3 }
  if it.effects.length > 0 then
    { it with scope := Scope.OneAlly, occasion := Occasion.Always }
  else it

/-- Collection mutation of the `create_item` handler in `itemTools.ts`:
`newId = items.length`, build the record, push it at the end. -/
def ItemTools.create_item (a : CreateItemArgs)
    (items : List (Option RPGItem)) : List (Option RPGItem) :=
  items ++ [some (ItemTools.create_item_record a items.length)]

/-- `update_item` from `itemTools.ts`: reject ids at or past the end of the
collection and null slots with an error response (no write); otherwise
assign the supplied optional fields in place and write back.  Returns the
on-disk collection after the operation and the response's `isError` flag. -/
def ItemTools.update_item (a : UpdateItemArgs)
    (items : List (Option RPGItem)) : List (Option RPGItem) × Bool :=
  if a.id ≥ items.length ∨ items[a.id]? = some none then (items, true)
  else
    match items[a.id]? with
    | some (some item) =>
      let item1 := { item with
        name := a.name.getD item.name
        description := a.description.getD item.description
        price := a.price.getD item.price
        iconIndex := a.iconIndex.getD item.iconIndex }
      (items.set a.id (some item1), false)
    | _ => (items, true)

/-- Filter step of `get_items` in `itemTools.ts`: keep exactly the non-null
records whose `name` is non-empty. -/
def ItemTools.get_items_filter (items : List (Option RPGItem)) : List RPGItem :=
  items.filterMap fun o => match o with
    | some i => if i.name ≠ "" then some i else none
    | none => none

/-- Listing entry produced by `get_items` in `itemTools.ts`. -/
structure ItemSummary where
  id : Nat
  name : String
  description : String
  price : Int
  iconIndex : Int
  type : String
  deriving DecidableEq, Repr

/-- `get_items` from `itemTools.ts`: the filtered records projected to their
summary fields. -/
def ItemTools.get_items (items : List (Option RPGItem)) : List ItemSummary :=
  (ItemTools.get_items_filter items).map fun i =>
    { id := i.id
      name := i.name
      description := i.description
      price := i.price
      iconIndex := i.iconIndex
      type := if i.itypeId = ItemType.KeyItem then "key" else "regular" }

/-- Arguments of the `create_state` tool (`createStateSchema` in
`stateTools.ts`). -/
structure CreateStateArgs where
  name : String
  iconIndex : Int
  restriction : Int
  priority : Int
  minTurns : Int
  maxTurns : Int
  autoRemovalTiming : Int
  chanceByDamage : Int
  removeAtBattleEnd : Bool
  regenerateMpRate : ℚ
  deriving DecidableEq, Repr

/-- Arguments of the `update_state` tool (`updateStateSchema` in
`stateTools.ts`). -/
structure UpdateStateArgs where
  id : Nat
  name : Option String
  iconIndex : Option Int
  minTurns : Option Int
  maxTurns : Option Int
  deriving DecidableEq, Repr

/-- `createDefaultState` from `stateTools.ts`. -/
def StateTools.createDefaultState (id : Nat) : RPGState :=
  { id := id
    name := ""
    iconIndex := 0
    restriction := 0
    priority := 50
    motion := 0
    overlay := 0
    removeAtBattleEnd := true
    removeByRestriction := false
    autoRemovalTiming := 0
    minTurns := 1
    maxTurns := 1
    removeByDamage := false
    chanceByDamage := 0
    removeByWalking := false
    stepsToRemove := 100
    message1 := ""
    message2 := ""
    message3 := ""
    message4 := ""
    traits := []
    note := "" }

/-- Record built by the `create_state` handler in `stateTools.ts` for a
fresh id: supplied fields assigned, removal-by-damage enabled when
`chanceByDamage > 0`, and an MP-regeneration trait (code 22, dataId 3)
pushed when `regenerateMpRate` is non-zero. -/
def StateTools.create_state_record (a : CreateStateArgs) (id : Nat) : RPGState :=
  let base := StateTools.createDefaultState id
  let st := { base with
    name := a.name
    iconIndex := a.iconIndex
    restriction := a.restriction
    priority := a.priority
    minTurns := a.minTurns
    maxTurns := a.maxTurns
    autoRemovalTiming := a.autoRemovalTiming
    removeAtBattleEnd := a.removeAtBattleEnd }
  let st :=
    if a.chanceByDamage > 0 then
      { st with removeByDamage := true, chanceByDamage := a.chanceByDamage }
    else st
  if a.regenerateMpRate ≠ 0 then
    { st with traits := st.traits ++
        [{ code := 22, dataId := 3, value := a.regenerateMpRate / 100 }] }
  else st

/-- Collection mutation of the `create_state` handler in `stateTools.ts`. -/
def StateTools.create_state (a : CreateStateArgs)
    (states : List (Option RPGState)) : List (Option RPGState) :=
  states ++ [some (StateTools.create_state_record a states.length)]

/-- `update_state` from `stateTools.ts`: ids at or past the end of the
collection, and null slots (`!states[id]`), are rejected with an error
response before any write; otherwise the supplied optional fields are
assigned in place and the collection written back. -/
def StateTools.update_state (a : UpdateStateArgs)
    (states : List (Option RPGState)) : List (Option RPGState) × Bool :=
  if a.id ≥ states.length ∨ states[a.id]? = some none then (states, true)
  else
    match states[a.id]? with
    | some (some st) =>
      let st1 := { st with
        name := a.name.getD st.name
        iconIndex := a.iconIndex.getD st.iconIndex
        minTurns := a.minTurns.getD st.minTurns
        maxTurns := a.maxTurns.getD st.maxTurns }
      (states.set a.id (some st1), false)
    | _ => (states, true)

/-- Filter step of `get_states` in `stateTools.ts`. -/
def StateTools.get_states_filter (states : List (Option RPGState)) : List RPGState :=
  states.filterMap fun o => match o with
    | some s => if s.name ≠ "" then some s else none
    | none => none

/-- Listing entry produced by `get_states` in `stateTools.ts`. -/
structure StateSummary where
  id : Nat
  name : String
  iconIndex : Int
  restriction : Int
  duration : String
  deriving DecidableEq, Repr

/-- `get_states` from `stateTools.ts`. -/
def StateTools.get_states (states : List (Option RPGState)) : List StateSummary :=
  (StateTools.get_states_filter states).map fun s =>
    { id := s.id
      name := s.name
      iconIndex := s.iconIndex
      restriction := s.restriction
      duration := toString s.minTurns ++ "-" ++ toString s.maxTurns ++ " turns" }

/-- Arguments of the `create_skill` tool (`createSkillSchema` in the skill
tools module). -/
structure CreateSkillArgs where
  name : String
  description : String
  mpCost : Int
  tpCost : Int
  iconIndex : Int
  scope : Int
  damageType : Int
  damageFormula : String
  deriving DecidableEq, Repr

/-- `createDefaultDamage` from the skill tools module. -/
def SkillTools.createDefaultDamage : RPGDamage :=
  { type := DamageType.HPDamage
    elementId := 0
    formula := "a.atk * 4 - b.def * 2"
    variance := 20
    critical := false }

/-- `createDefaultSkill` from the skill tools module. -/
def SkillTools.createDefaultSkill (id : Nat) : RPGSkill :=
  { id := id
    name := ""
    description := ""
    iconIndex := 0
    stypeId := 1
    scope := Scope.OneEnemy
    occasion := Occasion.Battle
    mpCost := 0
    tpCost := 0
    damage := SkillTools.createDefaultDamage
    effects := []
    requiredWtypeId1 := 0
    requiredWtypeId2 := 0
    speed := 0
    successRate := 100
    repeats := 1
    tpGain := 0
    hitType := 1
    animationId := 0
    message1 := ""
    message2 := ""
    note := "" }

/-- Record built by the `create_skill` handler for a fresh id. -/
def SkillTools.create_skill_record (a : CreateSkillArgs) (id : Nat) : RPGSkill :=
  let base := SkillTools.createDefaultSkill id
  { base with
    name := a.name
    description := a.description
    mpCost := a.mpCost
    tpCost := a.tpCost
    iconIndex := a.iconIndex
    scope := a.scope
    damage := { base.damage with type := a.damageType, formula := a.damageFormula } }

/-- Collection mutation of the `create_skill` handler. -/
def SkillTools.create_skill (a : CreateSkillArgs)
    (skills : List (Option RPGSkill)) : List (Option RPGSkill) :=
  skills ++ [some (SkillTools.create_skill_record a skills.length)]

/-- Filter step of `get_skills` in the skill tools module. -/
def SkillTools.get_skills_filter (skills : List (Option RPGSkill)) : List RPGSkill :=
  skills.filterMap fun o => match o with
    | some s => if s.name ≠ "" then some s else none
    | none => none

/-- Listing entry produced by `get_skills`. -/
structure SkillSummary where
  id : Nat
  name : String
  description : String
  mpCost : Int
  tpCost : Int
  iconIndex : Int
  deriving DecidableEq, Repr

/-- `get_skills` from the skill tools module. -/
def SkillTools.get_skills (skills : List (Option RPGSkill)) : List SkillSummary :=
  (SkillTools.get_skills_filter skills).map fun s =>
    { id := s.id
      name := s.name
      description := s.description
      mpCost := s.mpCost
      tpCost := s.tpCost
      iconIndex := s.iconIndex }

/-- Arguments of the `create_weapon` tool (`createWeaponSchema` in
`weaponTools.ts`). -/
structure CreateWeaponArgs where
  name : String
  description : String
  price : Int
  wtypeId : Int
  attack : Int
  elementId : Int
  iconIndex : Int
  animationId : Int
  deriving DecidableEq, Repr

/-- `createDefaultWeapon` from `weaponTools.ts`. -/
def WeaponTools.createDefaultWeapon (id : Nat) : RPGWeapon :=
  { id := id
    name := ""
    description := ""
    iconIndex := 0
    price := 0
    wtypeId := 1
    etypeId := 1
    params := [0, 0, 0, 0, 0, 0, 0, 0]
    traits := []
    animationId := 0
    note := "" }

/-- Record built by the `create_weapon` handler in `weaponTools.ts` for a
fresh id: supplied fields assigned, ATK written into `params[2]`, and an
element-rate trait (code 31) pushed when `elementId > 0`. -/
def WeaponTools.create_weapon_record (a : CreateWeaponArgs) (id : Nat) : RPGWeapon :=
  let base := WeaponTools.createDefaultWeapon id
  let w := { base with
    name := a.name
    description := a.description
    price := a.price
    wtypeId := a.wtypeId
    iconIndex := a.iconIndex
    animationId := a.animationId }
  let w := { w with params := w.params.set 2 a.attack }
  if a.elementId > 0 then
    { w with traits := w.traits ++ [{ code := 31, dataId := a.elementId, value := 1 }] }
  else w

/-- Collection mutation of the `create_weapon` handler in `weaponTools.ts`. -/
def WeaponTools.create_weapon (a : CreateWeaponArgs)
    (weapons : List (Option RPGWeapon)) : List (Option RPGWeapon) :=
  weapons ++ [some (WeaponTools.create_weapon_record a weapons.length)]

/-- Arguments of the `create_armor` tool (`createArmorSchema` in
`armorTools.ts`). -/
structure CreateArmorArgs where
  name : String
  description : String
  price : Int
  atypeId : Int
  etypeId : Int
  def_ : Int
  mdf : Int
  agi : Int
  iconIndex : Int
  deriving DecidableEq, Repr

/-- `createDefaultArmor` from `armorTools.ts`. -/
def ArmorTools.createDefaultArmor (id : Nat) : RPGArmor :=
  { id := id
    name := ""
    description := ""
    iconIndex := 0
    price := 0
    atypeId := 1
    etypeId := 2
    params := [0, 0, 0, 0, 0, 0, 0, 0]
    traits := []
    note := "" }

/-- Record built by the `create_armor` handler in `armorTools.ts` for a
fresh id: supplied fields assigned, DEF/MDF/AGI written into `params[3]`,
`params[5]`, `params[6]` (the schema's `def` argument is embedded as
`def_`). -/
def ArmorTools.create_armor_record (a : CreateArmorArgs) (id : Nat) : RPGArmor :=
  let base := ArmorTools.createDefaultArmor id
  let ar := { base with
    name := a.name
    description := a.description
    price := a.price
    atypeId := a.atypeId
    etypeId := a.etypeId
    iconIndex := a.iconIndex }
  { ar with params := ((ar.params.set 3 a.def_).set 5 a.mdf).set 6 a.agi }

/-- Collection mutation of the `create_armor` handler in `armorTools.ts`. -/
def ArmorTools.create_armor (a : CreateArmorArgs)
    (armors : List (Option RPGArmor)) : List (Option RPGArmor) :=
  armors ++ [some (ArmorTools.create_armor_record a armors.length)]

/-- Arguments of the `create_actor` tool (`createActorSchema` in
`actorTools.ts`); the optional string arguments default to `""` in the
schema, so they arrive as plain strings. -/
structure CreateActorArgs where
  name : String
  nickname : String
  classId : Int
  initialLevel : Int
  maxLevel : Int
  profile : String
  characterName : String
  characterIndex : Int
  faceName : String
  faceIndex : Int
  deriving DecidableEq, Repr

/-- `createDefaultActor` from `actorTools.ts`. -/
def ActorTools.createDefaultActor (id : Nat) : RPGActor :=
  { id := id
    name := ""
    nickname := ""
    classId := 1
    initialLevel := 1
    maxLevel := 99
    characterName := ""
    characterIndex := 0
    faceName := ""
    faceIndex := 0
    battlerName := ""
    equips := [0, 0, 0, 0, 0]
    profile := ""
    note := "" }

/-- Record built by the `create_actor` handler in `actorTools.ts` for a
fresh id. -/
def ActorTools.create_actor_record (a : CreateActorArgs) (id : Nat) : RPGActor :=
  let base := ActorTools.createDefaultActor id
  { base with
    name := a.name
    nickname := a.nickname
    classId := a.classId
    initialLevel := a.initialLevel
    maxLevel := a.maxLevel
    profile := a.profile
    characterName := a.characterName
    characterIndex := a.characterIndex
    faceName := a.faceName
    faceIndex := a.faceIndex }

/-- Collection mutation of the `create_actor` handler in `actorTools.ts`. -/
def ActorTools.create_actor (a : CreateActorArgs)
    (actors : List (Option RPGActor)) : List (Option RPGActor) :=
  actors ++ [some (ActorTools.create_actor_record a actors.length)]

/-- Arguments of the `create_class` tool (`createClassSchema` in
`classTools.ts`); only `name`, `expBase` and `expAccel` are used by the
handler. -/
structure CreateClassArgs where
  name : String
  expBase : Int
  expAccel : Int
  maxHp : Int
  maxMp : Int
  atk : Int
  def_ : Int
  deriving DecidableEq, Repr

/-- `createDefaultClass` from `classTools.ts`: flat level-1-to-99 curves
(`new Array(100).fill(…)`). -/
def ClassTools.createDefaultClass (id : Nat) : RPGClass :=
  { id := id
    name := ""
    expParams := [30, 20, 30, 30]
    params :=
      [List.replicate 100 100,
       List.replicate 100 100,
       List.replicate 100 10,
       List.replicate 100 10,
       List.replicate 100 10,
       List.replicate 100 10,
       List.replicate 100 10,
       List.replicate 100 10]
    learnings := []
    traits := []
    note := "" }

/-- Record built by the `create_class` handler in `classTools.ts` for a
fresh id: name assigned, `expParams[0]` and `expParams[1]` overwritten with
the supplied curve parameters. -/
def ClassTools.create_class_record (a : CreateClassArgs) (id : Nat) : RPGClass :=
  let base := ClassTools.createDefaultClass id
  let c := { base with name := a.name }
  { c with expParams := (c.expParams.set 0 a.expBase).set 1 a.expAccel }

/-- Collection mutation of the `create_class` handler in `classTools.ts`. -/
def ClassTools.create_class (a : CreateClassArgs)
    (classes : List (Option RPGClass)) : List (Option RPGClass) :=
  classes ++ [some (ClassTools.create_class_record a classes.length)]

/-- Arguments of the `create_enemy` tool (`createEnemySchema` in
`weaponTools.ts`'s enemy section); `battlerName` is optional with no
default. -/
structure CreateEnemyArgs where
  name : String
  maxHp : Int
  maxMp : Int
  atk : Int
  def_ : Int
  mat : Int
  mdf : Int
  agi : Int
  luk : Int
  exp : Int
  gold : Int
  battlerName : Option String
  battlerHue : Int
  deriving DecidableEq, Repr

/-- `createDefaultEnemy` from the enemy tools module. -/
def EnemyTools.createDefaultEnemy (id : Nat) : RPGEnemy :=
  { id := id
    name := ""
    battlerName := ""
    battlerHue := 0
    params := [100, 0, 10, 10, 10, 10, 10, 10]
    exp := 0
    gold := 0
    dropItems :=
      [{ kind := 0, dataId := 1, denominator := 1 },
       { kind := 0, dataId := 1, denominator := 1 },
       { kind := 0, dataId := 1, denominator := 1 }]
    actions := []
    traits := []
    note := "" }

/-- Record built by the `create_enemy` handler for a fresh id: the stat
block replaces `params` wholesale, and `battlerName` is assigned only when
supplied and truthy (JavaScript `if (battlerName)`, so an empty string is
skipped). -/
def EnemyTools.create_enemy_record (a : CreateEnemyArgs) (id : Nat) : RPGEnemy :=
  let base := EnemyTools.createDefaultEnemy id
  let e := { base with
    name := a.name
    params := [a.maxHp, a.maxMp, a.atk, a.def_, a.mat, a.mdf, a.agi, a.luk]
    exp := a.exp
    gold := a.gold }
  let e :=
    match a.battlerName with
    | some s => if s = "" then e else { e with battlerName := s }
    | none => e
  { e with battlerHue := a.battlerHue }

/-- Collection mutation of the `create_enemy` handler. -/
def EnemyTools.create_enemy (a : CreateEnemyArgs)
    (enemies : List (Option RPGEnemy)) : List (Option RPGEnemy) :=
  enemies ++ [some (EnemyTools.create_enemy_record a enemies.length)]

/-- Arguments of the `create_map` tool (`createMapSchema` in `mapTools.ts`). -/
structure CreateMapArgs where
  name : String
  displayName : String
  width : Nat
  height : Nat
  tilesetId : Int
  scrollType : Int
  encounterSteps : Int
  parentId : Int
  deriving DecidableEq, Repr

/-- `createDefaultMap` from `mapTools.ts`: the map body with a
`width * height * 6` tile-data array filled with zeros
(`new Array(dataSize).fill(0)`). -/
def MapTools.createDefaultMap (width height : Nat) : RPGMap :=
  let dataSize := width * height * 6
  { displayName := ""
    tilesetId := 1
    width := width
    height := height
    scrollType := ScrollType.NoLoop
    specifyBattleback := false
    battleback1Name := ""
    battleback2Name := ""
    autoplayBgm := false
    bgm := { name := "", pan := 0, pitch := 100, volume := 90 }
    autoplayBgs := false
    bgs := { name := "", pan := 0, pitch := 100, volume := 90 }
    disableDashing := false
    encounterList := []
    encounterStep := 30
    parallaxName := ""
    parallaxLoopX := false
    parallaxLoopY := false
    parallaxSx := 0
    parallaxSy := 0
    parallaxShow := false
    data := List.replicate dataSize 0
    events := []
    note := "" }

/-- New-id computation of the `create_map` handler in `mapTools.ts`:
`newId` starts at 1, the loop over indices `1 … mapInfos.length - 1` sets
`newId = i + 1` at every populated slot, and finally `newId` is raised to
`mapInfos.length` whenever the length exceeds it. -/
def MapTools.create_map_newId (mapInfos : List (Option RPGMapInfo)) : Nat :=
  let loopId := (List.range' 1 (mapInfos.length - 1)).foldl
    (fun acc i =>
      match mapInfos[i]? with
      | some (some _) => i + 1
      | _ => acc) 1
  if mapInfos.length > loopId then mapInfos.length else loopId

/-- JavaScript `x || 0` on a number: `0` (and only `0`) is falsy among the
integer values the tools store, so the fallback is taken exactly at `0`. -/
def jsOrZero (x : Int) : Int :=
  if x = 0 then 0 else x

/-- Max-order computation of the `create_map` handler in `mapTools.ts`:
`mapInfos.filter(m => m !== null).reduce((max, m) => Math.max(max, m.order || 0), 0)`. -/
def MapTools.create_map_maxOrder (mapInfos : List (Option RPGMapInfo)) : Int :=
  (mapInfos.filterMap fun x => x).foldl (fun mx m => max mx (jsOrZero m.order)) 0

/-- Map body written by the `create_map` handler in `mapTools.ts`: the
default map with the supplied display name, tileset, scroll type and
encounter step assigned. -/
def MapTools.create_map_mapData (a : CreateMapArgs) : RPGMap :=
  { MapTools.createDefaultMap a.width a.height with
    displayName := a.displayName
    tilesetId := a.tilesetId
    scrollType := a.scrollType
    encounterStep := a.encounterSteps }

/-- Index descriptor written by the `create_map` handler in `mapTools.ts`:
id from `create_map_newId`, order one past `create_map_maxOrder`. -/
def MapTools.create_map_info (a : CreateMapArgs)
    (mapInfos : List (Option RPGMapInfo)) : RPGMapInfo :=
  { id := MapTools.create_map_newId mapInfos
    name := a.name
    parentId := a.parentId
    expanded := false
    scrollX := 0
    scrollY := 0
    order := MapTools.create_map_maxOrder mapInfos + 1 }

/-- JavaScript `\s` whitespace class used by the `i`-flagged MZ header
regex in `pluginTools.ts`: space, tab, line feed, vertical tab, form feed,
carriage return, and the Unicode space separators the class includes. -/
def jsWhitespace (c : Char) : Bool :=
  c = ' ' || c = '\t' || c = '\n' || c = '\x0b' || c = '\x0c' || c = '\r' ||
  c.toNat = 0xa0 || c.toNat = 0x1680 ||
  (0x2000 ≤ c.toNat && c.toNat ≤ 0x200a) ||
  c.toNat = 0x2028 || c.toNat = 0x2029 || c.toNat = 0x202f ||
  c.toNat = 0x205f || c.toNat = 0x3000 || c.toNat = 0xfeff

/-- Drop a maximal run of JavaScript whitespace. -/
def skipJsWhitespace : List Char → List Char
  | [] => []
  | c :: cs => if jsWhitespace c then skipJsWhitespace cs else c :: cs

/-- Case-insensitive literal match (the regex carries the `i` flag): on
success, return the rest of the input. -/
def matchLitCI : List Char → List Char → Option (List Char)
  | [], s => some s
  | _ :: _, [] => none
  | p :: ps, c :: cs => if c.toLower = p.toLower then matchLitCI ps cs else none

/-- Match of `MZ_HEADER_REGEX` from `pluginTools.ts`
(`/\/\*:\s*\n?\s*\*\s*@target\s+MZ/i`) anchored at the head of the input.
Each `\s*`-shaped gap is consumed greedily, which is equivalent to the
backtracking semantics because every gap is followed by a non-whitespace
literal; the middle gap `\s*\n?\s*` matches exactly the whitespace runs, as
`\n` is itself in `\s`. -/
def mzHeaderMatchAt (s : List Char) : Bool :=
  match matchLitCI [ '/', '*', ':' ] s with
  | none => false
  | some r1 =>
    match matchLitCI [ '*' ] (skipJsWhitespace r1) with
    | none => false
    | some r2 =>
      match matchLitCI [ '@', 't', 'a', 'r', 'g', 'e', 't' ] (skipJsWhitespace r2) with
      | none => false
      | some r3 =>
        match r3 with
        | [] => false
        | c :: cs =>
          if jsWhitespace c then
            match matchLitCI [ 'M', 'Z' ] (skipJsWhitespace cs) with
            | some _ => true
            | none => false
          else false

/-- `MZ_HEADER_REGEX.test(code)`: unanchored search, i.e. a match starting
at any position of the input. -/
def mzHeaderTest : List Char → Bool
  | [] => false
  | c :: cs => mzHeaderMatchAt (c :: cs) || mzHeaderTest cs

/-- `createPluginHeader` from `pluginTools.ts`: the generated MZ header
comment block carrying the supplied description and author. -/
def PluginTools.createPluginHeader (description author : List Char) : List Char :=
  ("/*:\n * @target MZ\n * @plugindesc ").toList ++ description ++
  ("\n * @author ").toList ++ author ++
  ("\n * @help\n * This plugin was installed via MCP server.\n */\n").toList

/-- Final plugin file content computed by the `install_plugin` handler in
`pluginTools.ts`: the supplied code verbatim when `MZ_HEADER_REGEX` already
matches it, otherwise the generated header, a separating newline, and the
code. -/
def PluginTools.install_plugin_finalCode (code description author : List Char) :
    List Char :=
  if mzHeaderTest code then code
  else PluginTools.createPluginHeader description author ++ [ '\n' ] ++ code

/-- Spec-side reading of the map-creation claim, for refinement comparison:
the maximum `id` among the populated descriptors of the index (0 when there
are none). -/
def specMaxPopulatedId (mapInfos : List (Option RPGMapInfo)) : Nat :=
  ((mapInfos.filterMap fun x => x).map fun m => m.id).foldr max 0

/-- Spec-side reading of the map-creation claim, for refinement comparison:
the maximum `order` among the populated descriptors of the index (0 when
there are none). -/
def specMaxOrder (mapInfos : List (Option RPGMapInfo)) : Int :=
  ((mapInfos.filterMap fun x => x).map fun m => m.order).foldr max 0


theorem FileMap.get_set_self (fs : FileMap) (p v : String) :
    (fs.set p v).get p = some v := by
  simp [FileMap.set, FileMap.get]

theorem FileMap.get_set_ne (fs : FileMap) (p v q : String) (h : q ≠ p) :
    (fs.set p v).get q = fs.get q := by
  simp only [FileMap.set, FileMap.get]
  rw [if_neg (fun e => h e.symm)]

theorem append_bak_ne (s : String) : s ++ ".bak" ≠ s := by
  intro h
  have hl := congrArg String.length h
  rw [String.length_append] at hl
  have h4 : (".bak").length = 4 := by decide
  rw [h4] at hl
  omega

/-- C1: for every successful write to an already-existing database file,
the sibling `.bak` file afterwards holds exactly the file's content from
before the write. -/
theorem spec_C1_backup_fidelity (bf wf : Bool) (st : ProjectState)
    (path content oldContent : String)
    (hold : st.files.get path = some oldContent)
    (hok : (SafeWriter.writeToDatabase bf wf st path content).2 = true) :
    (SafeWriter.writeToDatabase bf wf st path content).1.files.get (path ++ ".bak")
      = some oldContent := by
  have hex : FileHandler.fileExists st.files path = true := by
    simp [FileHandler.fileExists, hold]
  have hbak : FileHandler.backup st.files path
      = some (st.files.set (path ++ ".bak") oldContent) := by
    simp [FileHandler.backup, hold]
  cases bf with
  | true => simp [SafeWriter.writeToDatabase, hex] at hok
  | false =>
    cases wf with
    | true => simp [SafeWriter.writeToDatabase, hex, hbak] at hok
    | false =>
      simp [SafeWriter.writeToDatabase, hex, hbak, SafeWriter.bumpVersion,
        FileHandler.writeJson]
      rw [FileMap.get_set_ne _ _ _ _ (append_bak_ne path)]
      exact FileMap.get_set_self _ _ _

theorem spec_C1_backup_fidelity_witness :
    (SafeWriter.writeToDatabase false false
        { files := [("data/Items.json", "old")], version := 0 }
        ("data/Items.json") ("new")).1.files.get ("data/Items.json" ++ ".bak")
      = some "old" :=
  spec_C1_backup_fidelity false false _ _ _ _ (by decide) (by decide)

/-- C2: when the backup-copy step of a write to an existing file fails, the
operation reports a WriteFailure and the whole state — in particular the
target file — is exactly what it was before. -/
theorem spec_C2_backup_failure_aborts (wf : Bool) (st : ProjectState)
    (path content : String)
    (hex : FileHandler.fileExists st.files path = true) :
    SafeWriter.writeToDatabase true wf st path content = (st, false) := by
  simp [SafeWriter.writeToDatabase, hex]

theorem spec_C2_backup_failure_aborts_witness :
    SafeWriter.writeToDatabase true false
        { files := [("data/Items.json", "old")], version := 3 }
        ("data/Items.json") ("new")
      = ({ files := [("data/Items.json", "old")], version := 3 }, false) :=
  spec_C2_backup_failure_aborts false _ _ _ (by decide)

theorem writeToDatabase_version (bf wf : Bool) (st : ProjectState) (p c : String) :
    (SafeWriter.writeToDatabase bf wf st p c).1.version
      = st.version
        + (if (SafeWriter.writeToDatabase bf wf st p c).2 then 1 else 0) := by
  by_cases hex : FileHandler.fileExists st.files p
  · obtain ⟨c0, hc0⟩ : ∃ c0, st.files.get p = some c0 := by
      simpa [FileHandler.fileExists, Option.isSome_iff_exists] using hex
    have hbak : FileHandler.backup st.files p
        = some (st.files.set (p ++ ".bak") c0) := by
      simp [FileHandler.backup, hc0]
    cases bf <;> cases wf <;>
      simp [SafeWriter.writeToDatabase, hex, hbak, SafeWriter.bumpVersion]
  · cases bf <;> cases wf <;>
      simp [SafeWriter.writeToDatabase, hex, SafeWriter.bumpVersion]

theorem runWrites_version (ops : List WriteOp) (st : ProjectState) :
    (runWrites st ops).1.version = st.version + (runWrites st ops).2 := by
  induction ops generalizing st with
  | nil => simp [runWrites]
  | cons op rest ih =>
    simp only [runWrites]
    rw [ih, writeToDatabase_version]
    cases (SafeWriter.writeToDatabase op.backupFails op.writeFails st
        op.path op.content).2 <;> simp <;> omega

theorem runWrites_count_le (ops : List WriteOp) (st : ProjectState) :
    (runWrites st ops).2 ≤ ops.length := by
  induction ops generalizing st with
  | nil => simp [runWrites]
  | cons op rest ih =>
    simp only [runWrites, List.length_cons]
    have := ih (SafeWriter.writeToDatabase op.backupFails op.writeFails st
      op.path op.content).1
    cases (SafeWriter.writeToDatabase op.backupFails op.writeFails st
        op.path op.content).2 <;> simp <;> omega

/-- C3: a run of N all-successful mutating operations advances the version
counter by exactly N (hence strictly, for N > 0), and a write whose primary
write step fails reports failure and leaves the version counter unchanged. -/
theorem spec_C3_version_monotonic (st : ProjectState) (ops : List WriteOp)
    (hall : (runWrites st ops).2 = ops.length) :
    (runWrites st ops).1.version = st.version + ops.length ∧
    (0 < ops.length → st.version < (runWrites st ops).1.version) ∧
    (∀ (bf : Bool) (st2 : ProjectState) (p c : String),
      (SafeWriter.writeToDatabase bf true st2 p c).2 = false ∧
      (SafeWriter.writeToDatabase bf true st2 p c).1.version = st2.version) := by
  refine ⟨?_, ?_, ?_⟩
  · rw [runWrites_version, hall]
  · intro hpos
    rw [runWrites_version, hall]
    omega
  · intro bf st2 p c
    by_cases hex : FileHandler.fileExists st2.files p
    · obtain ⟨c0, hc0⟩ : ∃ c0, st2.files.get p = some c0 := by
        simpa [FileHandler.fileExists, Option.isSome_iff_exists] using hex
      have hbak : FileHandler.backup st2.files p
          = some (st2.files.set (p ++ ".bak") c0) := by
        simp [FileHandler.backup, hc0]
      cases bf <;> simp [SafeWriter.writeToDatabase, hex, hbak]
    · cases bf <;> simp [SafeWriter.writeToDatabase, hex]

theorem spec_C3_version_monotonic_witness :
    (runWrites { files := [], version := 5 }
        [{ backupFails := false, writeFails := false,
           path := "data/Items.json", content := "x" },
         { backupFails := false, writeFails := false,
           path := "data/States.json", content := "y" }]).1.version = 5 + 2 :=
  (spec_C3_version_monotonic _ _ (by decide)).1

theorem LimitTools.shrinkLoop_eq_none_aux {α : Type} :
    ∀ (n : Nat) (data : List (Option α)), data.length = n →
    ∀ target : Nat, (∃ i r, target ≤ i ∧ data[i]? = some (some r)) →
    LimitTools.shrinkLoop data target = none := by
  intro n
  induction n using Nat.strong_induction_on with
  | _ n ih =>
    rintro data hlen target ⟨i, r, hti, hget⟩
    have hi : i < data.length := by
      by_contra hge
      rw [List.getElem?_eq_none (le_of_not_lt hge)] at hget
      exact Option.noConfusion hget
    have htlt : target < data.length := lt_of_le_of_lt hti hi
    rw [LimitTools.shrinkLoop, dif_pos htlt]
    rcases hlast : data.getLast? with _ | o
    · rfl
    · cases o with
      | some rec => rfl
      | none =>
        have hine : i ≠ data.length - 1 := by
          intro he
          rw [List.getLast?_eq_getElem? data] at hlast
          rw [he, hlast] at hget
          exact Option.noConfusion (Option.some.inj hget)
        have hilt : i < data.length - 1 := by omega
        exact ih (n - 1) (by omega) data.dropLast
          (by rw [List.length_dropLast, hlen]) target
          ⟨i, r, hti, by
            rw [List.dropLast_eq_take, List.getElem?_take_of_lt hilt]
            exact hget⟩

theorem LimitTools.shrinkLoop_eq_none {α : Type} (data : List (Option α))
    (target : Nat) (h : ∃ i r, target ≤ i ∧ data[i]? = some (some r)) :
    LimitTools.shrinkLoop data target = none :=
  LimitTools.shrinkLoop_eq_none_aux data.length data rfl target h

/-- C4: a limit-resize request whose truncated range contains a populated
record is rejected with an error response, and the on-disk collection is
exactly what it was before the request. -/
theorem spec_C4_shrink_rejection {α : Type} (limit : Nat)
    (disk : List (Option α))
    (h : ∃ i r, limit + 1 ≤ i ∧ disk[i]? = some (some r)) :
    LimitTools.set_database_limit limit disk = (disk, true) := by
  obtain ⟨i, r, hle, hget⟩ := h
  have hi : i < disk.length := by
    by_contra hge
    rw [List.getElem?_eq_none (le_of_not_lt hge)] at hget
    exact Option.noConfusion hget
  simp only [LimitTools.set_database_limit]
  rw [if_neg (by omega : ¬ limit + 1 > disk.length)]
  rw [LimitTools.shrinkLoop_eq_none disk (limit + 1) ⟨i, r, hle, hget⟩]

theorem spec_C4_shrink_rejection_witness :
    LimitTools.set_database_limit 1
        [none, none, some (ItemTools.createDefaultItem 2)]
      = ([none, none, some (ItemTools.createDefaultItem 2)], true) :=
  spec_C4_shrink_rejection 1 _
    ⟨2, ItemTools.createDefaultItem 2, by decide, by decide⟩

theorem ItemTools.create_item_record_id (a : CreateItemArgs) (id : Nat) :
    (ItemTools.create_item_record a id).id = id := by
  simp [ItemTools.create_item_record, apply_ite RPGItem.id,
    ItemTools.createDefaultItem]

theorem StateTools.create_state_record_id (a : CreateStateArgs) (id : Nat) :
    (StateTools.create_state_record a id).id = id := by
  simp [StateTools.create_state_record, apply_ite RPGState.id,
    StateTools.createDefaultState]

theorem SkillTools.create_skill_record_id (a : CreateSkillArgs) (id : Nat) :
    (SkillTools.create_skill_record a id).id = id := rfl

theorem WeaponTools.create_weapon_record_id (a : CreateWeaponArgs) (id : Nat) :
    (WeaponTools.create_weapon_record a id).id = id := by
  simp [WeaponTools.create_weapon_record, apply_ite RPGWeapon.id,
    WeaponTools.createDefaultWeapon]

theorem ArmorTools.create_armor_record_id (a : CreateArmorArgs) (id : Nat) :
    (ArmorTools.create_armor_record a id).id = id := rfl

theorem ActorTools.create_actor_record_id (a : CreateActorArgs) (id : Nat) :
    (ActorTools.create_actor_record a id).id = id := rfl

theorem ClassTools.create_class_record_id (a : CreateClassArgs) (id : Nat) :
    (ClassTools.create_class_record a id).id = id := rfl

theorem EnemyTools.create_enemy_record_id (a : CreateEnemyArgs) (id : Nat) :
    (EnemyTools.create_enemy_record a id).id = id := by
  simp only [EnemyTools.create_enemy_record]
  rcases a.battlerName with _ | s
  · rfl
  · by_cases hs : s = "" <;> simp [hs, EnemyTools.createDefaultEnemy]

/-- C5: every create operation (item, skill, state, weapon, armor, actor,
class, enemy) appends one record at the end of its collection, the new
record's `id` is the collection's length before the append, and the written
collection satisfies `records[id].id == id`. -/
theorem spec_C5_append_invariant :
    (∀ (a : CreateItemArgs) (items : List (Option RPGItem)),
      (ItemTools.create_item a items).length = items.length + 1 ∧
      (ItemTools.create_item a items)[items.length]?
        = some (some (ItemTools.create_item_record a items.length)) ∧
      (ItemTools.create_item_record a items.length).id = items.length) ∧
    (∀ (a : CreateSkillArgs) (skills : List (Option RPGSkill)),
      (SkillTools.create_skill a skills).length = skills.length + 1 ∧
      (SkillTools.create_skill a skills)[skills.length]?
        = some (some (SkillTools.create_skill_record a skills.length)) ∧
      (SkillTools.create_skill_record a skills.length).id = skills.length) ∧
    (∀ (a : CreateStateArgs) (states : List (Option RPGState)),
      (StateTools.create_state a states).length = states.length + 1 ∧
      (StateTools.create_state a states)[states.length]?
        = some (some (StateTools.create_state_record a states.length)) ∧
      (StateTools.create_state_record a states.length).id = states.length) ∧
    (∀ (a : CreateWeaponArgs) (weapons : List (Option RPGWeapon)),
      (WeaponTools.create_weapon a weapons).length = weapons.length + 1 ∧
      (WeaponTools.create_weapon a weapons)[weapons.length]?
        = some (some (WeaponTools.create_weapon_record a weapons.length)) ∧
      (WeaponTools.create_weapon_record a weapons.length).id = weapons.length) ∧
    (∀ (a : CreateArmorArgs) (armors : List (Option RPGArmor)),
      (ArmorTools.create_armor a armors).length = armors.length + 1 ∧
      (ArmorTools.create_armor a armors)[armors.length]?
        = some (some (ArmorTools.create_armor_record a armors.length)) ∧
      (ArmorTools.create_armor_record a armors.length).id = armors.length) ∧
    (∀ (a : CreateActorArgs) (actors : List (Option RPGActor)),
      (ActorTools.create_actor a actors).length = actors.length + 1 ∧
      (ActorTools.create_actor a actors)[actors.length]?
        = some (some (ActorTools.create_actor_record a actors.length)) ∧
      (ActorTools.create_actor_record a actors.length).id = actors.length) ∧
    (∀ (a : CreateClassArgs) (classes : List (Option RPGClass)),
      (ClassTools.create_class a classes).length = classes.length + 1 ∧
      (ClassTools.create_class a classes)[classes.length]?
        = some (some (ClassTools.create_class_record a classes.length)) ∧
      (ClassTools.create_class_record a classes.length).id = classes.length) ∧
    (∀ (a : CreateEnemyArgs) (enemies : List (Option RPGEnemy)),
      (EnemyTools.create_enemy a enemies).length = enemies.length + 1 ∧
      (EnemyTools.create_enemy a enemies)[enemies.length]?
        = some (some (EnemyTools.create_enemy_record a enemies.length)) ∧
      (EnemyTools.create_enemy_record a enemies.length).id = enemies.length) := by
  refine ⟨fun a l => ⟨?_, ?_, ?_⟩, fun a l => ⟨?_, ?_, ?_⟩, fun a l => ⟨?_, ?_, ?_⟩,
    fun a l => ⟨?_, ?_, ?_⟩, fun a l => ⟨?_, ?_, ?_⟩, fun a l => ⟨?_, ?_, ?_⟩,
    fun a l => ⟨?_, ?_, ?_⟩, fun a l => ⟨?_, ?_, ?_⟩⟩
  · simp [ItemTools.create_item]
  · simp [ItemTools.create_item, List.getElem?_concat_length]
  · exact ItemTools.create_item_record_id a l.length
  · simp [SkillTools.create_skill]
  · simp [SkillTools.create_skill, List.getElem?_concat_length]
  · exact SkillTools.create_skill_record_id a l.length
  · simp [StateTools.create_state]
  · simp [StateTools.create_state, List.getElem?_concat_length]
  · exact StateTools.create_state_record_id a l.length
  · simp [WeaponTools.create_weapon]
  · simp [WeaponTools.create_weapon, List.getElem?_concat_length]
  · exact WeaponTools.create_weapon_record_id a l.length
  · simp [ArmorTools.create_armor]
  · simp [ArmorTools.create_armor, List.getElem?_concat_length]
  · exact ArmorTools.create_armor_record_id a l.length
  · simp [ActorTools.create_actor]
  · simp [ActorTools.create_actor, List.getElem?_concat_length]
  · exact ActorTools.create_actor_record_id a l.length
  · simp [ClassTools.create_class]
  · simp [ClassTools.create_class, List.getElem?_concat_length]
  · exact ClassTools.create_class_record_id a l.length
  · simp [EnemyTools.create_enemy]
  · simp [EnemyTools.create_enemy, List.getElem?_concat_length]
  · exact EnemyTools.create_enemy_record_id a l.length

theorem jsOrZero_eq (x : Int) : jsOrZero x = x := by
  by_cases h : x = 0 <;> simp [jsOrZero, h]

theorem foldr_max_max {α : Type} [LinearOrder α] (a b : α) (xs : List α) :
    xs.foldr max (max a b) = max a (xs.foldr max b) := by
  induction xs with
  | nil => rfl
  | cons x xs ih => simp only [List.foldr_cons, ih, max_left_comm]

theorem foldl_max_eq_foldr_max {α : Type} [LinearOrder α] (xs : List α) (acc : α) :
    xs.foldl max acc = xs.foldr max acc := by
  induction xs generalizing acc with
  | nil => rfl
  | cons x xs ih =>
    simp only [List.foldl_cons, List.foldr_cons, ih]
    rw [max_comm acc x, foldr_max_max]

theorem MapTools.create_map_maxOrder_eq (l : List (Option RPGMapInfo)) :
    MapTools.create_map_maxOrder l = specMaxOrder l := by
  unfold MapTools.create_map_maxOrder specMaxOrder
  rw [show (fun mx (m : RPGMapInfo) => max mx (jsOrZero m.order))
        = fun mx (m : RPGMapInfo) => max mx m.order from
      funext fun mx => funext fun m => by rw [jsOrZero_eq]]
  rw [← List.foldl_map]
  exact foldl_max_eq_foldr_max _ _

theorem MapTools.newIdLoop_le (l : List (Option RPGMapInfo)) (B : Nat) :
    ∀ (xs : List Nat) (acc : Nat), (∀ i ∈ xs, i + 1 ≤ B) → acc ≤ B →
    xs.foldl (fun acc i =>
      match l[i]? with
      | some (some _) => i + 1
      | _ => acc) acc ≤ B := by
  intro xs
  induction xs with
  | nil =>
    intro acc _ hacc
    simpa using hacc
  | cons x xs ih =>
    intro acc hmem hacc
    simp only [List.foldl_cons]
    apply ih
    · intro i hi
      exact hmem i (List.mem_cons_of_mem _ hi)
    · rcases hx : l[x]? with _ | o
      · exact hacc
      · cases o with
        | none => exact hacc
        | some m => exact hmem x (List.mem_cons_self _ _)

/-- C6 (counterexample): on a length-4 map index whose only populated
descriptor is at position 1 (trailing absence-markers at 2 and 3),
`create_map` computes the new id 4, not the claimed "maximum populated
descriptor id plus 1" = 2. -/
theorem spec_C6_counterexample :
    MapTools.create_map_newId
        [none,
         some { id := 1, name := "A", parentId := 0, expanded := false,
                scrollX := 0, scrollY := 0, order := 1 },
         none, none] = 4 ∧
    specMaxPopulatedId
        [none,
         some { id := 1, name := "A", parentId := 0, expanded := false,
                scrollX := 0, scrollY := 0, order := 1 },
         none, none] + 1 = 2 ∧
    (MapTools.create_map_info
        { name := "B", displayName := "", width := 20, height := 15,
          tilesetId := 1, scrollType := 0, encounterSteps := 30, parentId := 0 }
        [none,
         some { id := 1, name := "A", parentId := 0, expanded := false,
                scrollX := 0, scrollY := 0, order := 1 },
         none, none]).id ≠
      specMaxPopulatedId
        [none,
         some { id := 1, name := "A", parentId := 0, expanded := false,
                scrollX := 0, scrollY := 0, order := 1 },
         none, none] + 1 := by
  refine ⟨by decide, by decide, by decide⟩

/-- C6 (amended): the descriptor appended by `create_map` has `id` equal to
the length of the map index (1 on an empty index) — which coincides with
"maximum populated id + 1" only when the index's last slot is populated —
and `order` equal to the maximum `order` among pre-existing populated
descriptors plus 1. -/
theorem spec_C6_map_descriptor (a : CreateMapArgs)
    (mapInfos : List (Option RPGMapInfo)) :
    (MapTools.create_map_info a mapInfos).id = max 1 mapInfos.length ∧
    (MapTools.create_map_info a mapInfos).order = specMaxOrder mapInfos + 1 := by
  constructor
  · show MapTools.create_map_newId mapInfos = max 1 mapInfos.length
    simp only [MapTools.create_map_newId]
    rcases Nat.eq_zero_or_pos mapInfos.length with h0 | hpos
    · rw [List.length_eq_zero] at h0
      subst h0
      decide
    · have hmem : ∀ i ∈ List.range' 1 (mapInfos.length - 1),
          i + 1 ≤ mapInfos.length := by
        intro i hi
        rw [List.mem_range'_1] at hi
        omega
      have hle := MapTools.newIdLoop_le mapInfos mapInfos.length
        (List.range' 1 (mapInfos.length - 1)) 1 hmem hpos
      by_cases hlt : mapInfos.length > (List.range' 1 (mapInfos.length - 1)).foldl
          (fun acc i =>
            match mapInfos[i]? with
            | some (some _) => i + 1
            | _ => acc) 1
      · rw [if_pos hlt]
        omega
      · rw [if_neg hlt]
        omega
  · show MapTools.create_map_maxOrder mapInfos + 1 = specMaxOrder mapInfos + 1
    rw [MapTools.create_map_maxOrder_eq]

/-- C7: the map body written by `create_map` for width `w` and height `h`
has a tile-data array of exactly `w * h * 6` entries, all zero. -/
theorem spec_C7_map_data_zeroed (a : CreateMapArgs) :
    (MapTools.create_map_mapData a).data
      = List.replicate (a.width * a.height * 6) 0 ∧
    (MapTools.create_map_mapData a).data.length = a.width * a.height * 6 ∧
    (MapTools.create_map_mapData a).data.all (fun x => x == 0) = true := by
  refine ⟨rfl, ?_, ?_⟩
  · simp [MapTools.create_map_mapData, MapTools.createDefaultMap]
  · simp only [MapTools.create_map_mapData, MapTools.createDefaultMap]
    rw [List.all_eq_true]
    intro x hx
    rw [List.eq_of_mem_replicate hx]
    rfl

theorem mzHeaderTest_header (d a rest : List Char) :
    mzHeaderTest (PluginTools.createPluginHeader d a ++ rest) = true := rfl

/-- C8: `install_plugin` writes the supplied code verbatim exactly when the
MZ header pattern already matches it; otherwise it writes the generated
header block (carrying the description and author), a newline, and the
code — and the generated block itself satisfies the MZ header pattern, so
a header is present in the written file either way. -/
theorem spec_C8_plugin_header (code description author : List Char) :
    (mzHeaderTest code = true →
      PluginTools.install_plugin_finalCode code description author = code) ∧
    (mzHeaderTest code = false →
      PluginTools.install_plugin_finalCode code description author
        = PluginTools.createPluginHeader description author ++ [ '\n' ] ++ code ∧
      mzHeaderTest
        (PluginTools.install_plugin_finalCode code description author) = true) := by
  constructor
  · intro h
    simp [PluginTools.install_plugin_finalCode, h]
  · intro h
    have hfc : PluginTools.install_plugin_finalCode code description author
        = PluginTools.createPluginHeader description author ++ [ '\n' ] ++ code := by
      simp [PluginTools.install_plugin_finalCode, h]
    refine ⟨hfc, ?_⟩
    rw [hfc, List.append_assoc]
    exact mzHeaderTest_header description author ([ '\n' ] ++ code)

theorem spec_C8_plugin_header_witness :
    (PluginTools.install_plugin_finalCode (("/*:\n * @target MZ\n */").toList)
        (("desc").toList) (("auth").toList)
      = ("/*:\n * @target MZ\n */").toList) ∧
    (PluginTools.install_plugin_finalCode (("console.log(1);").toList)
        (("desc").toList) (("auth").toList)
      = PluginTools.createPluginHeader (("desc").toList) (("auth").toList)
          ++ [ '\n' ] ++ ("console.log(1);").toList) ∧
    mzHeaderTest (PluginTools.install_plugin_finalCode (("console.log(1);").toList)
        (("desc").toList) (("auth").toList)) = true :=
  ⟨(spec_C8_plugin_header _ _ _).1 (by decide),
   ((spec_C8_plugin_header _ _ _).2 (by decide)).1,
   ((spec_C8_plugin_header _ _ _).2 (by decide)).2⟩

/-- C9: `update_item` and `update_state` reject an id at or past the end of
the collection, or whose slot holds an absence-marker, with an error
response (`isError` set) and leave the on-disk collection untouched. -/
theorem spec_C9_update_missing_rejected (a : UpdateItemArgs)
    (items : List (Option RPGItem)) (b : UpdateStateArgs)
    (states : List (Option RPGState))
    (ha : a.id ≥ items.length ∨ items[a.id]? = some none)
    (hb : b.id ≥ states.length ∨ states[b.id]? = some none) :
    ItemTools.update_item a items = (items, true) ∧
    StateTools.update_state b states = (states, true) := by
  constructor
  · simp only [ItemTools.update_item]
    rw [if_pos ha]
  · simp only [StateTools.update_state]
    rw [if_pos hb]

theorem spec_C9_update_missing_rejected_witness :
    ItemTools.update_item
        { id := 1, name := none, description := none, price := none,
          iconIndex := none } [none, none]
      = ([none, none], true) ∧
    StateTools.update_state
        { id := 3, name := none, iconIndex := none, minTurns := none,
          maxTurns := none } [none]
      = ([none], true) :=
  spec_C9_update_missing_rejected _ _ _ _ (by decide) (by decide)

theorem DatabaseTools.count_eq_filterMap_length {α : Type} (nm : α → String)
    (f : Option α → Option α) (hnone : f none = none)
    (hsome : ∀ i, f (some i) = if nm i ≠ "" then some i else none)
    (arr : List (Option α)) :
    DatabaseTools.count nm arr = (arr.filterMap f).length := by
  induction arr with
  | nil => rfl
  | cons o rest ih =>
    cases o with
    | none =>
      simpa [DatabaseTools.count, List.filter_cons, List.filterMap_cons, hnone]
        using ih
    | some i =>
      by_cases hn : nm i = "" <;>
        simpa [DatabaseTools.count, List.filter_cons, List.filterMap_cons,
          hsome, hn] using ih

theorem mem_visible_filterMap {α : Type} (nm : α → String)
    (f : Option α → Option α) (hnone : f none = none)
    (hsome : ∀ i, f (some i) = if nm i ≠ "" then some i else none)
    (l : List (Option α)) (r : α) :
    r ∈ l.filterMap f ↔ some r ∈ l ∧ nm r ≠ "" := by
  rw [List.mem_filterMap]
  constructor
  · rintro ⟨o, ho, hfo⟩
    cases o with
    | none =>
      rw [hnone] at hfo
      exact Option.noConfusion hfo
    | some i =>
      rw [hsome] at hfo
      by_cases hn : nm i = ""
      · simp [hn] at hfo
      · simp only [ne_eq, hn, not_false_eq_true, if_true] at hfo
        rw [Option.some.injEq] at hfo
        subst hfo
        exact ⟨ho, hn⟩
  · rintro ⟨hmem, hname⟩
    refine ⟨some r, hmem, ?_⟩
    rw [hsome]
    simp [hname]

theorem ItemTools.create_item_record_name (a : CreateItemArgs) (id : Nat) :
    (ItemTools.create_item_record a id).name = a.name := by
  simp [ItemTools.create_item_record, apply_ite RPGItem.name]

/-- C10: the listings (`get_items`, `get_skills`, `get_states`) and the
per-type counts of `get_database_info` include a record exactly when it is
non-null and its `name` is non-empty; in particular a record created with
an empty name occupies an id (the collection grows) yet is invisible to
the listing and to the count. -/
theorem spec_C10_listing_visibility :
    (∀ (items : List (Option RPGItem)) (r : RPGItem),
      r ∈ ItemTools.get_items_filter items ↔ some r ∈ items ∧ r.name ≠ "") ∧
    (∀ (skills : List (Option RPGSkill)) (s : RPGSkill),
      s ∈ SkillTools.get_skills_filter skills ↔ some s ∈ skills ∧ s.name ≠ "") ∧
    (∀ (states : List (Option RPGState)) (s : RPGState),
      s ∈ StateTools.get_states_filter states ↔ some s ∈ states ∧ s.name ≠ "") ∧
    (∀ items : List (Option RPGItem),
      DatabaseTools.count RPGItem.name items
        = (ItemTools.get_items_filter items).length) ∧
    (∀ skills : List (Option RPGSkill),
      DatabaseTools.count RPGSkill.name skills
        = (SkillTools.get_skills_filter skills).length) ∧
    (∀ states : List (Option RPGState),
      DatabaseTools.count RPGState.name states
        = (StateTools.get_states_filter states).length) ∧
    (∀ (a : CreateItemArgs) (items : List (Option RPGItem)), a.name = "" →
      ItemTools.get_items_filter (ItemTools.create_item a items)
        = ItemTools.get_items_filter items ∧
      DatabaseTools.count RPGItem.name (ItemTools.create_item a items)
        = DatabaseTools.count RPGItem.name items ∧
      (ItemTools.create_item a items).length = items.length + 1) := by
  refine ⟨fun items r =>
      mem_visible_filterMap RPGItem.name _ rfl (fun i => rfl) items r,
    fun skills s =>
      mem_visible_filterMap RPGSkill.name _ rfl (fun i => rfl) skills s,
    fun states s =>
      mem_visible_filterMap RPGState.name _ rfl (fun i => rfl) states s,
    fun items =>
      DatabaseTools.count_eq_filterMap_length RPGItem.name _ rfl
        (fun i => rfl) items,
    fun skills =>
      DatabaseTools.count_eq_filterMap_length RPGSkill.name _ rfl
        (fun i => rfl) skills,
    fun states =>
      DatabaseTools.count_eq_filterMap_length RPGState.name _ rfl
        (fun i => rfl) states,
    fun a items ha => ⟨?_, ?_, ?_⟩⟩
  · simp only [ItemTools.get_items_filter, ItemTools.create_item]
    rw [List.filterMap_append]
    simp [ItemTools.create_item_record_name, ha]
  · simp only [DatabaseTools.count, ItemTools.create_item]
    rw [List.filter_append]
    simp [ItemTools.create_item_record_name, ha]
  · simp [ItemTools.create_item]

theorem spec_C10_listing_visibility_witness :
    ItemTools.get_items_filter
        (ItemTools.create_item
          { name := "", description := "d", price := 10, type := "regular",
            hpRecoveryPercent := 0, hpRecoveryFixed := 0,
            mpRecoveryPercent := 0, mpRecoveryFixed := 0,
            addStateId := 0, iconIndex := 0 } [none])
      = ItemTools.get_items_filter [none] ∧
    DatabaseTools.count RPGItem.name
        (ItemTools.create_item
          { name := "", description := "d", price := 10, type := "regular",
            hpRecoveryPercent := 0, hpRecoveryFixed := 0,
            mpRecoveryPercent := 0, mpRecoveryFixed := 0,
            addStateId := 0, iconIndex := 0 } [none])
      = DatabaseTools.count RPGItem.name [none] ∧
    (ItemTools.create_item
          { name := "", description := "d", price := 10, type := "regular",
            hpRecoveryPercent := 0, hpRecoveryFixed := 0,
            mpRecoveryPercent := 0, mpRecoveryFixed := 0,
            addStateId := 0, iconIndex := 0 } [none]).length
      = ([none] : List (Option RPGItem)).length + 1 :=
  spec_C10_listing_visibility.2.2.2.2.2.2 _ _ rfl
